import Mathlib

/-!
Verification of the ruuvi_gateway_exporter core pipeline: the BLE
advertisement-structure scanner (`src/rw_message.rs`), the manufacturer
payload selection loop (`src/measurements.rs`), and the metrics
serializer (`src/collector.rs`, `src/metrics.rs`).

Machine integers are modelled as `ℕ`/`ℤ`/`ℚ`; `hifitime::Epoch` values are
modelled as rational unix seconds; Rust `Option`/`Result` become
`Option`/`Except`; the `HashMap<String, Tag>` store is modelled as an
association list with unique keys whose entry order is immaterial.
-/

namespace Ruuvi

/-- One BLE advertisement structure (`AdMessage` in `src/rw_message.rs`):
a type byte and a payload byte sequence. -/
structure AdMessage where
  ad_type : ℕ
  payload : List ℕ
deriving DecidableEq, Repr

instance : DecidableEq (Except Unit AdMessage) := fun
  | .error (), .error () => isTrue rfl
  | .error (), .ok _ => isFalse (fun h => Except.noConfusion h)
  | .ok _, .error () => isFalse (fun h => Except.noConfusion h)
  | .ok a, .ok b =>
    if h : a = b then isTrue (congrArg Except.ok h)
    else isFalse (fun he => h (Except.ok.inj he))

/-- Outcome of a single call to `AdMessageIter::next`
(`src/rw_message.rs` lines 107-127).  `done` models `None`,
`abort` models a Rust panic (the `len - 1` underflow on a `u8` when
`len = 0`, which aborts under checked arithmetic), and
`yield r rest` models `Some(r)` with the iterator's slice updated
to `rest`. -/
inductive AdStep where
  | done
  | abort
  | yield (r : Except Unit AdMessage) (rest : List ℕ)
deriving DecidableEq, Repr

/-- The body of `AdMessageIter::next` (`src/rw_message.rs` lines 107-127).
The match arms mirror the source: an empty slice returns `None`;
a slice of at least two bytes `[len, ad_type, ..]` either reports a
truncated structure (clearing the slice) or splits off `len - 1` payload
bytes; the catch-all arm (reached exactly on a one-byte slice) returns
`Some(Err(..))` WITHOUT modifying the slice. -/
def adNext : List ℕ → AdStep
  | [] => .done
  | [len] => .yield (.error ()) [len]
  | len :: ad_type :: rest =>
      let tail := ad_type :: rest
      if tail.length < len then .yield (.error ()) []
      else if len = 0 then .abort
      else .yield (.ok ⟨ad_type, (tail.drop 1).take (len - 1)⟩) (tail.drop len)

/-- Fuelled iteration of `adNext`: collects the yielded items, `none` when
the iteration panics or does not finish within the fuel. -/
def scanAds : ℕ → List ℕ → Option (List (Except Unit AdMessage))
  | 0, _ => none
  | n + 1, buf =>
    match adNext buf with
    | .done => some []
    | .abort => none
    | .yield r rest => (scanAds n rest).map (fun l => r :: l)

/-- The full (finite) scan of one advertisement buffer.  A successful
iteration shortens the buffer by at least two bytes per yielded item, so
`length + 1` fuel is always enough; `none` therefore means the Rust
iterator panics or yields errors forever without terminating. -/
def adScan (buf : List ℕ) : Option (List (Except Unit AdMessage)) :=
  scanAds (buf.length + 1) buf

/-- Fields of a format-"V5" reading, mirroring the `ruuvi_decoders::V5Data`
fields read by `src/collector.rs` lines 115-161: temperature in Celsius,
humidity as a percentage (ratio × 100), pressure in pascals, acceleration
components in milli-g, battery voltage in millivolts, transmit power in
dBm, a movement counter and a measurement sequence number.  Absent fields
are `none`. -/
structure V5Data where
  temperature : Option ℚ
  humidity : Option ℚ
  pressure : Option ℚ
  acceleration_x : Option ℤ
  acceleration_y : Option ℤ
  acceleration_z : Option ℤ
  battery_voltage : Option ℕ
  tx_power : Option ℤ
  movement_counter : Option ℕ
  measurement_sequence : Option ℕ
deriving DecidableEq, Repr

/-- Fields of a format-"V6" reading, as read by `src/collector.rs`
lines 163-182 (pressure in hectopascals, scaled ×100 at serialization). -/
structure V6Data where
  temperature : Option ℚ
  humidity : Option ℚ
  pressure : Option ℚ
  pm2_5 : Option ℚ
  co2 : Option ℕ
  voc_index : Option ℕ
  nox_index : Option ℕ
  luminosity : Option ℚ
  measurement_sequence : Option ℕ
deriving DecidableEq, Repr

/-- Fields of a format-"E1" reading, as read by `src/collector.rs`
lines 183-207. -/
structure E1Data where
  temperature : Option ℚ
  humidity : Option ℚ
  pressure : Option ℚ
  pm1_0 : Option ℚ
  pm2_5 : Option ℚ
  pm4_0 : Option ℚ
  pm10_0 : Option ℚ
  co2 : Option ℕ
  voc_index : Option ℕ
  nox_index : Option ℕ
  luminosity : Option ℚ
  measurement_sequence : Option ℕ
deriving DecidableEq, Repr

/-- The tagged union of reading formats (`ruuvi_decoders::RuuviData`),
matched exhaustively by `collect_metrics` in `src/collector.rs`. -/
inductive RuuviData where
  | V5 (d : V5Data)
  | V6 (d : V6Data)
  | E1 (d : E1Data)
deriving DecidableEq, Repr

/-- Big-endian 16-bit read. -/
def beU16 (hi lo : ℕ) : ℕ := hi * 256 + lo

/-- Big-endian 16-bit read, interpreted as a signed two's-complement value. -/
def beI16 (hi lo : ℕ) : ℤ :=
  if beU16 hi lo < 32768 then (beU16 hi lo : ℤ) else (beU16 hi lo : ℤ) - 65536

/-- Modelled from the spec: the `ruuvi_decoders` crate called by
`Measurements::update_tag` (`src/measurements.rs` line 49,
`RuuviData::decode`) is not under `src/`.  This models its format-"V5"
layout from the spec's field table (§4.2): the payload's first byte is the
version tag; a V5 record is 24 bytes: version, then big-endian 16-bit
temperature (signed, × 0.005 °C, sentinel `0x8000`), humidity (unsigned,
× 0.0025 stored as ratio × 100, sentinel `0xFFFF`), pressure (unsigned,
+ 50000 Pa offset, sentinel `0xFFFF`), acceleration x/y/z (signed milli-g,
sentinel `0x8000` each), a packed power field (high 11 bits battery:
+ 1600 mV floor, sentinel all-ones; low 5 bits tx power: × 2 − 40 dBm,
sentinel all-ones), an 8-bit movement counter (no sentinel), a 16-bit
measurement sequence number (no sentinel) and a 6-byte device address.
Other format versions are not needed by the claims below and decode to
`none` here. -/
def decodeRuuvi : List ℕ → Option RuuviData
  | 5 :: t1 :: t0 :: h1 :: h0 :: p1 :: p0 :: x1 :: x0 :: y1 :: y0 :: z1 :: z0
      :: w1 :: w0 :: mv :: s1 :: s0 :: [_, _, _, _, _, _] =>
    some (.V5
      { temperature :=
          if beU16 t1 t0 = 0x8000 then none
          else some ((beI16 t1 t0 : ℚ) * 5 / 1000)
        humidity :=
          if beU16 h1 h0 = 0xFFFF then none
          else some ((beU16 h1 h0 : ℚ) * 25 / 10000)
        pressure :=
          if beU16 p1 p0 = 0xFFFF then none
          else some ((beU16 p1 p0 : ℚ) + 50000)
        acceleration_x :=
          if beU16 x1 x0 = 0x8000 then none else some (beI16 x1 x0)
        acceleration_y :=
          if beU16 y1 y0 = 0x8000 then none else some (beI16 y1 y0)
        acceleration_z :=
          if beU16 z1 z0 = 0x8000 then none else some (beI16 z1 z0)
        battery_voltage :=
          if beU16 w1 w0 / 32 = 2047 then none
          else some (beU16 w1 w0 / 32 + 1600)
        tx_power :=
          if beU16 w1 w0 % 32 = 31 then none
          else some (2 * (beU16 w1 w0 % 32 : ℤ) - 40)
        movement_counter := some mv
        measurement_sequence := some (beU16 s1 s0) })
  | _ => none

/-- One sensor message handed to the core (`TagMessage` in
`src/rw_message.rs`): sensor identifier, raw advertisement bytes, capture
time (unix seconds) and signal strength in dBm. -/
structure TagMessage where
  name : String
  data : List ℕ
  timestamp : ℚ
  rssi : ℤ
deriving DecidableEq, Repr

/-- One stored sensor record (`Tag` in `src/measurements.rs`). -/
structure Tag where
  last_seen : ℚ
  rssi : ℤ
  values : RuuviData
deriving DecidableEq, Repr

/-- The sensor map `HashMap<String, Tag>` modelled as an association list
with unique keys; entry order is immaterial (the serializer sorts). -/
def TagStore := List (String × Tag)
deriving DecidableEq

/-- `HashMap::insert`: replace the entry for the key if present, otherwise
add a new entry. -/
def insertTag (k : String) (v : Tag) : TagStore → TagStore
  | [] => [(k, v)]
  | (k', v') :: t => if k' = k then (k, v) :: t else (k', v') :: insertTag k v t

/-- `HashMap::get`: look up the entry for a key. -/
def lookupTag (k : String) : TagStore → Option Tag
  | [] => none
  | (k', v) :: t => if k' = k then some v else lookupTag k t

/-- The iterator chain of `Measurements::update_tag`
(`src/measurements.rs` lines 37-40):
`msgs.filter_map(Result::ok).filter(|msg| msg.ad_type == 0xff)`. -/
def ruuviMsgs (structs : List (Except Unit AdMessage)) : List AdMessage :=
  (structs.filterMap Except.toOption).filter (fun m => m.ad_type == 255)

/-- The loop body of `Measurements::update_tag`
(`src/measurements.rs` lines 41-65): skip payloads shorter than two
bytes, read the little-endian 16-bit manufacturer identifier from the
first two bytes, and for the Ruuvi identifier `0x0499` insert the decoded
reading (replacing any previous record for the sensor) or, on decode
failure, only report.  The boolean accumulator is the `found_ruuvi`
flag. -/
def updateTagStep (decode : List ℕ → Option RuuviData) (msg : TagMessage)
    (acc : TagStore × Bool) (m : AdMessage) : TagStore × Bool :=
  match m.payload with
  | b0 :: b1 :: rest =>
    if b0 + 256 * b1 = 0x0499 then
      match decode rest with
      | some values =>
        (insertTag msg.name ⟨msg.timestamp, msg.rssi, values⟩ acc.1, true)
      | none => (acc.1, true)
    else acc
  | _ => acc

/-- The full loop of `Measurements::update_tag` over the scanned
structures, returning the updated store and the `found_ruuvi` flag. -/
def updateTagCore (decode : List ℕ → Option RuuviData) (msg : TagMessage)
    (structs : List (Except Unit AdMessage)) (tags : TagStore) :
    TagStore × Bool :=
  (ruuviMsgs structs).foldl (updateTagStep decode msg) (tags, false)

/-- `Measurements::update_tag` (`src/measurements.rs` lines 31-74):
scan the advertisement buffer and fold the loop body over the
manufacturer-specific structures.  The result is `none` exactly when the
Rust iteration would panic or loop forever (see the scanner model). -/
def updateTag (decode : List ℕ → Option RuuviData) (msg : TagMessage)
    (tags : TagStore) : Option TagStore :=
  (adScan msg.data).map fun structs => (updateTagCore decode msg structs tags).1

/-- The manufacturer-data payload of a candidate structure: for a
manufacturer-specific structure whose payload holds at least the
little-endian vendor identifier `0x0499`, the bytes after the
identifier. -/
def candPayload (m : AdMessage) : Option (List ℕ) :=
  match m.payload with
  | b0 :: b1 :: rest => if b0 + 256 * b1 = 0x0499 then some rest else none
  | _ => none

/-- All vendor-matching candidate payloads of a scanned buffer, in
structure order. -/
def vendorCands (structs : List (Except Unit AdMessage)) : List (List ℕ) :=
  (ruuviMsgs structs).filterMap candPayload

/-- One serialized metric line (`Metric` in `src/metrics.rs`): name, label
key/value pairs in emission order, and the numeric value.  Values are
modelled as exact rationals; the final text rendering
(`Display for Metric`, then `join("\n") + "\n"` in `collect_metrics`) maps
this list one line at a time. -/
structure Metric where
  name : String
  labels : List (String × String)
  value : ℚ
deriving DecidableEq, Repr

/-- `add_optional_metric` (`src/collector.rs` lines 15-24): a `some` value
produces exactly one line, a `none` value produces no line at all. -/
def optMetric (name : String) (labels : List (String × String)) :
    Option ℚ → List Metric
  | some v => [⟨name, labels, v⟩]
  | none => []

/-- `add_common_environmental_metrics` (`src/collector.rs` lines 26-53):
sequence number, temperature, humidity (divided by 100 into a ratio) and
pressure, each only when present. -/
def commonEnvironmentalMetrics (labels : List (String × String))
    (measurement_sequence temperature humidity pressure : Option ℚ) :
    List Metric :=
  optMetric "ruuvi_tag_sequence_number" labels measurement_sequence ++
  optMetric "ruuvi_tag_temperature_celsius" labels temperature ++
  optMetric "ruuvi_tag_humidity_ratio" labels (humidity.map (fun h => h / 100)) ++
  optMetric "ruuvi_tag_pressure_pascals" labels pressure

/-- `add_air_quality_metrics` (`src/collector.rs` lines 55-69). -/
def airQualityMetrics (labels : List (String × String))
    (pm2_5 co2 voc_index nox_index luminosity : Option ℚ) : List Metric :=
  optMetric "ruuvi_tag_pm2_5_ugm3" labels pm2_5 ++
  optMetric "ruuvi_tag_co2_ppm" labels co2 ++
  optMetric "ruuvi_tag_voc_index" labels voc_index ++
  optMetric "ruuvi_tag_nox_index" labels nox_index ++
  optMetric "ruuvi_tag_luminosity_lux" labels luminosity

/-- The label set built for one sensor (`src/collector.rs` lines 99-103):
sensor identifier, owning gateway identifier, and an optional
human-readable name from the lookup table. -/
def tagLabels (gwMac : String) (lookup : String → Option String)
    (mac : String) : List (String × String) :=
  [("mac", mac), ("gw_mac", gwMac)] ++
    (match lookup mac with | some n => [("name", n)] | none => [])

/-- The lines emitted for one sensor by the per-tag body of
`collect_metrics` (`src/collector.rs` lines 98-212): last-seen timestamp,
then the format-dependent fields, then signal strength. -/
def tagLines (gwMac : String) (lookup : String → Option String)
    (mac : String) (tag : Tag) : List Metric :=
  let labels := tagLabels gwMac lookup mac
  [⟨"ruuvi_tag_last_seen_timestamp_seconds", labels, tag.last_seen⟩] ++
  (match tag.values with
   | .V5 d =>
     commonEnvironmentalMetrics labels (d.measurement_sequence.map (fun x => (x : ℚ)))
       d.temperature d.humidity d.pressure ++
     optMetric "ruuvi_tag_movement_counter" labels
       (d.movement_counter.map (fun x => (x : ℚ))) ++
     (match d.acceleration_x, d.acceleration_y, d.acceleration_z with
      | some x, some y, some z =>
        [⟨"ruuvi_tag_acceleration_x_g", labels, (x : ℚ) / 1000⟩,
         ⟨"ruuvi_tag_acceleration_y_g", labels, (y : ℚ) / 1000⟩,
         ⟨"ruuvi_tag_acceleration_z_g", labels, (z : ℚ) / 1000⟩]
      | _, _, _ => []) ++
     optMetric "ruuvi_tag_battery_volts" labels
       (d.battery_voltage.map (fun v => (v : ℚ) / 1000)) ++
     optMetric "ruuvi_tag_tx_power_dBm" labels (d.tx_power.map (fun x => (x : ℚ)))
   | .V6 d =>
     commonEnvironmentalMetrics labels (d.measurement_sequence.map (fun x => (x : ℚ)))
       d.temperature d.humidity (d.pressure.map (fun p => p * 100)) ++
     airQualityMetrics labels d.pm2_5 (d.co2.map (fun x => (x : ℚ))) (d.voc_index.map (fun x => (x : ℚ)))
       (d.nox_index.map (fun x => (x : ℚ))) d.luminosity
   | .E1 d =>
     commonEnvironmentalMetrics labels (d.measurement_sequence.map (fun x => (x : ℚ)))
       d.temperature d.humidity (d.pressure.map (fun p => p * 100)) ++
     optMetric "ruuvi_tag_pm1_0_ugm3" labels d.pm1_0 ++
     optMetric "ruuvi_tag_pm4_0_ugm3" labels d.pm4_0 ++
     optMetric "ruuvi_tag_pm10_0_ugm3" labels d.pm10_0 ++
     airQualityMetrics labels d.pm2_5 (d.co2.map (fun x => (x : ℚ))) (d.voc_index.map (fun x => (x : ℚ)))
       (d.nox_index.map (fun x => (x : ℚ))) d.luminosity) ++
  [⟨"ruuvi_tag_rssi_dBm", labels, tag.rssi⟩]

/-- The aggregate state (`Measurements` in `src/measurements.rs`):
gateway bookkeeping plus the sensor map. -/
structure Measurements where
  last_update : ℚ
  last_nonce : Option ℕ
  mac : String
  tags : TagStore

/-- `Measurements::new` (`src/measurements.rs` lines 22-29):
`hifitime::UNIX_REF_EPOCH` is unix second 0, no nonce, empty gateway
identifier, empty sensor map. -/
def Measurements.new : Measurements :=
  { last_update := 0, last_nonce := none, mac := "", tags := [] }

/-- Comparison used by `sorted_tags.sort_by_key(|(mac, _)| *mac)`
(`src/collector.rs` lines 95-96).  Rust compares `String`s by UTF-8 byte
order, which agrees with the scalar-value order of Lean strings. -/
def tagKeyLe (a b : String × Tag) : Prop := a.1 ≤ b.1

instance : DecidableRel tagKeyLe := fun a b =>
  inferInstanceAs (Decidable (a.1 ≤ b.1))

/-- The sorted copy of the sensor map taken by `collect_metrics`
(`src/collector.rs` lines 94-96). -/
def sortTags (tags : TagStore) : TagStore := tags.insertionSort tagKeyLe

/-- `collect_metrics` (`src/collector.rs` lines 71-215) at the granularity
of metric lines: gateway timestamp line, optional gateway nonce line, then
the per-sensor lines with sensors visited in ascending identifier order. -/
def collectMetricLines (state : Measurements)
    (lookup : String → Option String) : List Metric :=
  let gwLabels := [("gw_mac", state.mac)] ++
    (match lookup state.mac with | some n => [("name", n)] | none => [])
  [⟨"ruuvi_gateway_update_timestamp_seconds", gwLabels, state.last_update⟩] ++
  optMetric "ruuvi_gateway_nonce" gwLabels (state.last_nonce.map (fun x => (x : ℚ))) ++
  (sortTags state.tags).flatMap (fun p => tagLines state.mac lookup p.1 p.2)

/-- An empty label lookup table (`MacMapping::default()` in
`src/config.rs`). -/
def lookupNone : String → Option String := fun _ => none

/-- The sensor identifiers of a metrics document, in emission order: the
`mac` label (always the first label of a sensor line) of each
`ruuvi_tag_last_seen_timestamp_seconds` line, of which each sensor
produces exactly one. -/
def sensorOrder (lines : List Metric) : List String :=
  (lines.filter
      (fun m => m.name == "ruuvi_tag_last_seen_timestamp_seconds")).filterMap
    (fun m => m.labels.head?.map Prod.snd)

/-- The optional metric lines of one reading, as (metric name, optional
value) pairs in the emission order of `collect_metrics`
(`src/collector.rs` lines 114-207).  An entry whose value is `none` is a
field that is absent for this reading (the acceleration components are
emitted only when all three are present, mirroring the source's
triple-`Some` condition). -/
def optionalFieldValues : RuuviData → List (String × Option ℚ)
  | .V5 d =>
    [("ruuvi_tag_sequence_number", d.measurement_sequence.map (fun x => (x : ℚ))),
     ("ruuvi_tag_temperature_celsius", d.temperature),
     ("ruuvi_tag_humidity_ratio", d.humidity.map (fun h => h / 100)),
     ("ruuvi_tag_pressure_pascals", d.pressure),
     ("ruuvi_tag_movement_counter", d.movement_counter.map (fun x => (x : ℚ))),
     ("ruuvi_tag_acceleration_x_g",
       match d.acceleration_x, d.acceleration_y, d.acceleration_z with
       | some x, some _, some _ => some ((x : ℚ) / 1000)
       | _, _, _ => none),
     ("ruuvi_tag_acceleration_y_g",
       match d.acceleration_x, d.acceleration_y, d.acceleration_z with
       | some _, some y, some _ => some ((y : ℚ) / 1000)
       | _, _, _ => none),
     ("ruuvi_tag_acceleration_z_g",
       match d.acceleration_x, d.acceleration_y, d.acceleration_z with
       | some _, some _, some z => some ((z : ℚ) / 1000)
       | _, _, _ => none),
     ("ruuvi_tag_battery_volts",
       d.battery_voltage.map (fun v => (v : ℚ) / 1000)),
     ("ruuvi_tag_tx_power_dBm", d.tx_power.map (fun x => (x : ℚ)))]
  | .V6 d =>
    [("ruuvi_tag_sequence_number", d.measurement_sequence.map (fun x => (x : ℚ))),
     ("ruuvi_tag_temperature_celsius", d.temperature),
     ("ruuvi_tag_humidity_ratio", d.humidity.map (fun h => h / 100)),
     ("ruuvi_tag_pressure_pascals", d.pressure.map (fun p => p * 100)),
     ("ruuvi_tag_pm2_5_ugm3", d.pm2_5),
     ("ruuvi_tag_co2_ppm", d.co2.map (fun x => (x : ℚ))),
     ("ruuvi_tag_voc_index", d.voc_index.map (fun x => (x : ℚ))),
     ("ruuvi_tag_nox_index", d.nox_index.map (fun x => (x : ℚ))),
     ("ruuvi_tag_luminosity_lux", d.luminosity)]
  | .E1 d =>
    [("ruuvi_tag_sequence_number", d.measurement_sequence.map (fun x => (x : ℚ))),
     ("ruuvi_tag_temperature_celsius", d.temperature),
     ("ruuvi_tag_humidity_ratio", d.humidity.map (fun h => h / 100)),
     ("ruuvi_tag_pressure_pascals", d.pressure.map (fun p => p * 100)),
     ("ruuvi_tag_pm1_0_ugm3", d.pm1_0),
     ("ruuvi_tag_pm4_0_ugm3", d.pm4_0),
     ("ruuvi_tag_pm10_0_ugm3", d.pm10_0),
     ("ruuvi_tag_pm2_5_ugm3", d.pm2_5),
     ("ruuvi_tag_co2_ppm", d.co2.map (fun x => (x : ℚ))),
     ("ruuvi_tag_voc_index", d.voc_index.map (fun x => (x : ℚ))),
     ("ruuvi_tag_nox_index", d.nox_index.map (fun x => (x : ℚ))),
     ("ruuvi_tag_luminosity_lux", d.luminosity)]

/-- The metric names of the fields that are present in a reading, in
emission order. -/
def presentOptionalNames (values : RuuviData) : List String :=
  (optionalFieldValues values).flatMap
    (fun p => (p.2.map (fun _ => p.1)).toList)

/-- Events relevant to the lock discipline of the two request handlers in
`src/main.rs`: acquiring/releasing the shared `Mutex<Measurements>`,
performing payload decoding (`update_tag`: advertisement scanning plus
reading decode) and performing metrics-text serialization
(`collect_metrics`). -/
inductive LockEv where
  | acquire
  | release
  | decodeWork
  | serializeWork
deriving DecidableEq, Repr

/-- The event sequence of `post_measurements` (`src/main.rs` lines 68-82)
for a request carrying `n` sensor messages: `sensor_state.lock()`, then
`state.update_tag(tag)` — which scans and decodes the payload — once per
message while the guard is live, then `drop(state)`. -/
def postMeasurementsTrace (n : ℕ) : List LockEv :=
  [.acquire] ++ List.replicate n .decodeWork ++ [.release]

/-- The event sequence of the `metrics` handler (`src/main.rs` lines
208-213): `sensor_state.lock()`, then `collect_metrics(&state)` runs with
the guard still live; the guard is dropped only when the function
returns. -/
def metricsTrace : List LockEv :=
  [.acquire, .serializeWork, .release]

/-- Whether the lock is held when the event at index `i` of the trace
runs: strictly more acquisitions than releases occur before `i`. -/
def lockHeldAt (t : List LockEv) (i : ℕ) : Bool :=
  (t.take i).count .release < (t.take i).count .acquire

/-- The spec's §5 lock discipline, as a predicate on handler traces: no
decoding and no serialization happen at any point where the lock is
held. -/
def noWorkUnderLock (t : List LockEv) : Prop :=
  ∀ i, lockHeldAt t i = true →
    t[i]? ≠ some .decodeWork ∧ t[i]? ≠ some .serializeWork

instance : IsTotal (String × Tag) tagKeyLe := ⟨fun a b => le_total a.1 b.1⟩

instance : IsTrans (String × Tag) tagKeyLe :=
  ⟨fun _ _ _ h1 h2 => le_trans h1 h2⟩

/-- The format-"V5" record of the repository's captured example
advertisement (`src/rw_message.rs` test data), after the vendor
identifier. -/
def v5Bytes : List ℕ :=
  [0x05, 0x0F, 0xE0, 0x33, 0x7C, 0xC4, 0xAB, 0xFC, 0x14, 0x00, 0x34,
   0x00, 0x24, 0xA5, 0xB6, 0xEB, 0xA5, 0x44, 0xDD, 0x19, 0x92, 0xCB,
   0x60, 0x21]

/-- A variant of `v5Bytes` with temperature raw 100, movement counter 0
and sequence number 42309. -/
def v5BytesB : List ℕ :=
  [0x05, 0x00, 0x64, 0x33, 0x7C, 0xC4, 0xAB, 0xFC, 0x14, 0x00, 0x34,
   0x00, 0x24, 0xA5, 0xB6, 0x00, 0xA5, 0x45, 0xDD, 0x19, 0x92, 0xCB,
   0x60, 0x21]

/-- The decoded reading of `v5Bytes`. -/
def v5ReadingA : V5Data :=
  { temperature := some 20.32, humidity := some 32.95,
    pressure := some 100347, acceleration_x := some (-1004),
    acceleration_y := some 52, acceleration_z := some 36,
    battery_voltage := some 2925, tx_power := some 4,
    movement_counter := some 235, measurement_sequence := some 42308 }

/-- The decoded reading of `v5BytesB`. -/
def v5ReadingB : V5Data :=
  { temperature := some 0.5, humidity := some 32.95,
    pressure := some 100347, acceleration_x := some (-1004),
    acceleration_y := some 52, acceleration_z := some 36,
    battery_voltage := some 2925, tx_power := some 4,
    movement_counter := some 0, measurement_sequence := some 42309 }

/-- An advertisement with one manufacturer-specific structure carrying
`v5Bytes`. -/
def advOneVendor : List ℕ := [0x1B, 0xFF, 0x99, 0x04] ++ v5Bytes

/-- An advertisement with two manufacturer-specific structures, the first
carrying `v5Bytes`, the second `v5BytesB`. -/
def advTwoVendors : List ℕ :=
  ([0x1B, 0xFF, 0x99, 0x04] ++ v5Bytes) ++ ([0x1B, 0xFF, 0x99, 0x04] ++ v5BytesB)

/-- The scanned structures of `advTwoVendors`. -/
def structsTwoVendors : List (Except Unit AdMessage) :=
  [.ok ⟨255, [0x99, 0x04] ++ v5Bytes⟩, .ok ⟨255, [0x99, 0x04] ++ v5BytesB⟩]

/-- The scanned structures of `advOneVendor`. -/
def structsOneVendor : List (Except Unit AdMessage) :=
  [.ok ⟨255, [0x99, 0x04] ++ v5Bytes⟩]

/-- The scanned structures of the vendor-free advertisement
`[0x02, 0x01, 0x06]` (flags structure only). -/
def structsNoVendor : List (Except Unit AdMessage) := [.ok ⟨1, [6]⟩]

/-- The scanned structures of `advCaptured`. -/
def structsCaptured : List (Except Unit AdMessage) :=
  [.ok ⟨1, [6]⟩, .ok ⟨255, [0x99, 0x04] ++ v5Bytes⟩]

/-- The captured example advertisement of the repository's tests:
flags structure, then one Ruuvi manufacturer-specific structure. -/
def advCaptured : List ℕ := [0x02, 0x01, 0x06] ++ advOneVendor

/-- The captured example sensor message
(`src/collector.rs` `test_collect_metrics_full_output`): signal strength
−55 dBm. -/
def msgCaptured : TagMessage :=
  ⟨"DD:19:92:CB:60:21", advCaptured, 1736885086, -55⟩

/-- The label set of the captured example sensor under an empty lookup
table. -/
def capturedLabels : List (String × String) :=
  [("mac", "DD:19:92:CB:60:21"), ("gw_mac", "")]

/-- A format-"V5" record in which every field with a sentinel encoding
carries it: temperature `0x8000`, humidity `0xFFFF`, pressure `0xFFFF`,
acceleration `0x8000` each, packed power `0xFFFF`. -/
def sentinelV5Bytes : List ℕ :=
  [0x05, 0x80, 0x00, 0xFF, 0xFF, 0xFF, 0xFF, 0x80, 0x00, 0x80, 0x00,
   0x80, 0x00, 0xFF, 0xFF, 0x00, 0x00, 0x00, 0x00, 0x00, 0x00, 0x00,
   0x00, 0x00]

/-- The reading decoded from `sentinelV5Bytes`: every sentinel-capable
field is absent. -/
def sentinelV5Reading : V5Data :=
  { temperature := none, humidity := none, pressure := none,
    acceleration_x := none, acceleration_y := none, acceleration_z := none,
    battery_voltage := none, tx_power := none,
    movement_counter := some 0, measurement_sequence := some 0 }

/-- A V6 reading with no present optional field. -/
def emptyV6 : V6Data :=
  { temperature := none, humidity := none, pressure := none,
    pm2_5 := none, co2 := none, voc_index := none, nox_index := none,
    luminosity := none, measurement_sequence := none }

/-- Sample sensor records for the ingestion-order witness. -/
def tagRecA : Tag := ⟨1, -10, .V5 sentinelV5Reading⟩

def tagRecB : Tag := ⟨2, -20, .V6 emptyV6⟩

/-- A store state whose map holds sensor "B" before sensor "A". -/
def stateBA : Measurements := ⟨0, none, "G", [("B", tagRecB), ("A", tagRecA)]⟩

/-- The same records with "A" inserted first. -/
def tagsAB : TagStore := [("A", tagRecA), ("B", tagRecB)]

lemma adNext_singleton (x : ℕ) : adNext [x] = .yield (.error ()) [x] := rfl

/-- A one-byte buffer is a fixed point of the iterator step: the scan never
finishes with any amount of fuel. -/
lemma scanAds_singleton (x : ℕ) : ∀ n, scanAds n [x] = none := by
  intro n
  induction n with
  | zero => rfl
  | succ n ih => simp [scanAds, adNext_singleton, ih]

lemma lookupTag_insertTag (k : String) (v : Tag) (t : TagStore) :
    lookupTag k (insertTag k v t) = some v := by
  induction t with
  | nil => simp [insertTag, lookupTag]
  | cons p t ih =>
    obtain ⟨k', v'⟩ := p
    by_cases h : k' = k <;> simp [insertTag, lookupTag, h, ih]

lemma insertTag_insertTag (k : String) (v w : Tag) (t : TagStore) :
    insertTag k w (insertTag k v t) = insertTag k w t := by
  induction t with
  | nil => simp [insertTag]
  | cons p t ih =>
    obtain ⟨k', v'⟩ := p
    by_cases h : k' = k <;> simp [insertTag, h, ih]

lemma getLast?_cons {α : Type} (v : α) (S : List α) :
    (v :: S).getLast? = some (S.getLast?.getD v) := by
  induction S generalizing v with
  | nil => rfl
  | cons w S ih => rw [List.getLast?_cons_cons, ih w]; simp

/-- The store produced by the `update_tag` loop: the last successfully
decoded vendor-matching candidate (in structure order) wins; with no
successful decode the store is unchanged. -/
lemma foldl_updateTagStep (decode : List ℕ → Option RuuviData)
    (msg : TagMessage) :
    ∀ (ms : List AdMessage) (acc : TagStore × Bool),
    (ms.foldl (updateTagStep decode msg) acc).1 =
      match ((ms.filterMap candPayload).filterMap decode).getLast? with
      | none => acc.1
      | some v => insertTag msg.name ⟨msg.timestamp, msg.rssi, v⟩ acc.1 := by
  intro ms
  induction ms with
  | nil => intro acc; rfl
  | cons m ms ih =>
    intro acc
    rw [List.foldl_cons]
    rcases hm : m.payload with _ | ⟨b0, tl⟩
    · have hstep : updateTagStep decode msg acc m = acc := by
        simp [updateTagStep, hm]
      have hcand : candPayload m = none := by simp [candPayload, hm]
      rw [hstep, List.filterMap_cons, hcand, ih acc]
    · rcases tl with _ | ⟨b1, rest⟩
      · have hstep : updateTagStep decode msg acc m = acc := by
          simp [updateTagStep, hm]
        have hcand : candPayload m = none := by simp [candPayload, hm]
        rw [hstep, List.filterMap_cons, hcand, ih acc]
      · by_cases hid : b0 + 256 * b1 = 0x0499
        · have hcand : candPayload m = some rest := by
            simp [candPayload, hm, hid]
          rcases hdec : decode rest with _ | v
          · have hstep : updateTagStep decode msg acc m = (acc.1, true) := by
              simp [updateTagStep, hm, hid, hdec]
            rw [hstep, ih (acc.1, true)]
            simp only [List.filterMap_cons, hcand, hdec]
          · have hstep : updateTagStep decode msg acc m =
                (insertTag msg.name ⟨msg.timestamp, msg.rssi, v⟩ acc.1, true) := by
              simp [updateTagStep, hm, hid, hdec]
            rw [hstep,
              ih (insertTag msg.name ⟨msg.timestamp, msg.rssi, v⟩ acc.1, true)]
            simp only [List.filterMap_cons, hcand, hdec]
            rw [getLast?_cons]
            rcases hS : ((ms.filterMap candPayload).filterMap decode).getLast?
              with _ | w
            · simp
            · simp [insertTag_insertTag]
        · have hstep : updateTagStep decode msg acc m = acc := by
            simp [updateTagStep, hm, hid]
          have hcand : candPayload m = none := by simp [candPayload, hm, hid]
          rw [hstep, List.filterMap_cons, hcand, ih acc]

/-- If the last candidate payload decodes successfully then it is also the
last successful decode. -/
lemma filterMap_getLast?_of_last (decode : List ℕ → Option RuuviData)
    (l : List (List ℕ)) (p : List ℕ) (v : RuuviData)
    (hl : l.getLast? = some p) (hv : decode p = some v) :
    (l.filterMap decode).getLast? = some v := by
  induction l with
  | nil => simp at hl
  | cons q l ih =>
    rcases l with _ | ⟨q', l'⟩
    · simp at hl
      subst hl
      simp [List.filterMap_cons, hv]
    · rw [List.getLast?_cons_cons] at hl
      have hlast := ih hl
      rcases hq : decode q with _ | w
      · simpa only [List.filterMap_cons, hq] using hlast
      · rw [show List.filterMap decode (q :: q' :: l') =
            w :: List.filterMap decode (q' :: l') from by
          rw [List.filterMap_cons, hq]]
        rw [getLast?_cons, hlast]
        simp

lemma map_name_optMetric (n : String) (labels : List (String × String))
    (v : Option ℚ) :
    (optMetric n labels v).map Metric.name = (v.map fun _ => n).toList := by
  cases v <;> rfl

/-- The metric names emitted for one sensor: the mandatory last-seen line,
the present optional fields in emission order, and the mandatory signal
strength line. -/
lemma tagLines_names (g : String) (lookup : String → Option String)
    (mac : String) (tag : Tag) :
    (tagLines g lookup mac tag).map Metric.name =
      "ruuvi_tag_last_seen_timestamp_seconds" ::
        (presentOptionalNames tag.values ++ ["ruuvi_tag_rssi_dBm"]) := by
  obtain ⟨ls, rs, values⟩ := tag
  cases values with
  | V5 d =>
    rcases hx : d.acceleration_x with _ | x <;>
    rcases hy : d.acceleration_y with _ | y <;>
    rcases hz : d.acceleration_z with _ | z <;>
      simp [tagLines, presentOptionalNames, optionalFieldValues,
        commonEnvironmentalMetrics, map_name_optMetric, hx, hy, hz]
  | V6 d =>
    simp [tagLines, presentOptionalNames, optionalFieldValues,
      commonEnvironmentalMetrics, airQualityMetrics, map_name_optMetric]
  | E1 d =>
    simp [tagLines, presentOptionalNames, optionalFieldValues,
      commonEnvironmentalMetrics, airQualityMetrics, map_name_optMetric]

lemma mem_flatMap_present {l : List (String × Option ℚ)} {x : String}
    (h : x ∈ l.flatMap (fun p => (p.2.map (fun _ => p.1)).toList)) :
    ∃ v, (x, some v) ∈ l := by
  induction l with
  | nil => simp at h
  | cons p l ih =>
    rw [List.flatMap_cons, List.mem_append] at h
    rcases h with h | h
    · rcases hp : p.2 with _ | v
      · rw [hp] at h; simp at h
      · rw [hp] at h
        simp at h
        subst h
        exact ⟨v, by rw [← hp]; exact List.mem_cons_self p l⟩
    · obtain ⟨v, hv⟩ := ih h
      exact ⟨v, List.mem_cons_of_mem p hv⟩

lemma mem_presentOptionalNames {values : RuuviData} {x : String}
    (h : x ∈ presentOptionalNames values) :
    ∃ v, (x, some v) ∈ optionalFieldValues values := by
  rw [presentOptionalNames] at h
  exact mem_flatMap_present h

lemma keyed_value_unique {α : Type} {l : List (String × α)} {x : String}
    {a b : α} (hnd : (l.map Prod.fst).Nodup)
    (ha : (x, a) ∈ l) (hb : (x, b) ∈ l) : a = b := by
  induction l with
  | nil => simp at ha
  | cons p l ih =>
    rw [List.map_cons, List.nodup_cons] at hnd
    rcases List.mem_cons.mp ha with ha' | ha' <;>
      rcases List.mem_cons.mp hb with hb' | hb'
    · exact congrArg Prod.snd (ha'.trans hb'.symm)
    · exfalso
      apply hnd.1
      rw [← ha']
      exact List.mem_map.mpr ⟨(x, b), hb', rfl⟩
    · exfalso
      apply hnd.1
      rw [← hb']
      exact List.mem_map.mpr ⟨(x, a), ha', rfl⟩
    · exact ih hnd.2 ha' hb'

lemma optionalFieldValues_keys_nodup (values : RuuviData) :
    ((optionalFieldValues values).map Prod.fst).Nodup := by
  cases values <;> simp [optionalFieldValues]

lemma optionalFieldValues_keys_ne (values : RuuviData) :
    ∀ x ∈ (optionalFieldValues values).map Prod.fst,
      x ≠ "ruuvi_tag_last_seen_timestamp_seconds" ∧
      x ≠ "ruuvi_tag_rssi_dBm" := by
  cases values <;> simp [optionalFieldValues]

lemma sortTags_sorted_keys (tags : TagStore) :
    List.Sorted (· ≤ ·) ((sortTags tags).map Prod.fst) :=
  List.pairwise_map.mpr
    ((List.sorted_insertionSort tagKeyLe tags).imp (fun h => h))

lemma sortTags_sorted_strict {t : TagStore}
    (hnd : (t.map Prod.fst).Nodup) :
    List.Sorted (fun a b : String × Tag => a.1 < b.1 ∨ a = b) (sortTags t) := by
  have hs : List.Pairwise tagKeyLe (sortTags t) :=
    List.sorted_insertionSort tagKeyLe t
  have hmapnd : ((sortTags t).map Prod.fst).Nodup :=
    (((List.perm_insertionSort tagKeyLe t).map Prod.fst).nodup_iff).mpr hnd
  have hne : List.Pairwise (fun a b : String × Tag => a.1 ≠ b.1) (sortTags t) :=
    List.pairwise_map.mp hmapnd
  exact (hs.and hne).imp (fun h => Or.inl (lt_of_le_of_ne h.1 h.2))

lemma sortTags_eq_of_perm {t1 t2 : TagStore} (hperm : t1.Perm t2)
    (hnd : (t1.map Prod.fst).Nodup) : sortTags t1 = sortTags t2 := by
  haveI : IsAntisymm (String × Tag) (fun a b => a.1 < b.1 ∨ a = b) := by
    constructor
    intro a b hab hba
    rcases hab with h | h
    · rcases hba with h' | h'
      · exact absurd h' (lt_asymm h)
      · exact h'.symm
    · exact h
  have hnd2 : (t2.map Prod.fst).Nodup :=
    ((hperm.map Prod.fst).nodup_iff).mp hnd
  exact List.eq_of_perm_of_sorted
    (((List.perm_insertionSort tagKeyLe t1).trans hperm).trans
      (List.perm_insertionSort tagKeyLe t2).symm)
    (sortTags_sorted_strict hnd) (sortTags_sorted_strict hnd2)

lemma filter_lastSeen_optMetric (n : String) (labels : List (String × String))
    (v : Option ℚ) (h : n ≠ "ruuvi_tag_last_seen_timestamp_seconds") :
    (optMetric n labels v).filter
      (fun m => m.name == "ruuvi_tag_last_seen_timestamp_seconds") = [] := by
  cases v <;> simp [optMetric, h]

/-- Each sensor contributes exactly one last-seen line, carrying its label
set. -/
lemma filter_lastSeen_tagLines (g : String) (lookup : String → Option String)
    (mac : String) (tag : Tag) :
    (tagLines g lookup mac tag).filter
      (fun m => m.name == "ruuvi_tag_last_seen_timestamp_seconds") =
      [⟨"ruuvi_tag_last_seen_timestamp_seconds", tagLabels g lookup mac,
        tag.last_seen⟩] := by
  obtain ⟨ls, rs, values⟩ := tag
  cases values with
  | V5 d =>
    rcases hx : d.acceleration_x with _ | x <;>
    rcases hy : d.acceleration_y with _ | y <;>
    rcases hz : d.acceleration_z with _ | z <;>
      simp [tagLines, commonEnvironmentalMetrics, List.filter_append,
        filter_lastSeen_optMetric, hx, hy, hz]
  | V6 d =>
    simp [tagLines, commonEnvironmentalMetrics, airQualityMetrics,
      List.filter_append, filter_lastSeen_optMetric]
  | E1 d =>
    simp [tagLines, commonEnvironmentalMetrics, airQualityMetrics,
      List.filter_append, filter_lastSeen_optMetric]

lemma sensorOrder_flatMap (g : String) (lookup : String → Option String)
    (l : TagStore) :
    ((l.flatMap (fun p => (tagLines g lookup p.1 p.2).filter
        (fun m => m.name == "ruuvi_tag_last_seen_timestamp_seconds"))).filterMap
      (fun m => m.labels.head?.map Prod.snd)) = l.map Prod.fst := by
  induction l with
  | nil => rfl
  | cons p l ih =>
    rw [List.flatMap_cons, filter_lastSeen_tagLines, List.filterMap_append, ih]
    simp [tagLabels]

/-- The sensors of a metrics document appear in exactly the sorted key
order of the store. -/
lemma sensorOrder_collect (s : Measurements) (lookup : String → Option String) :
    sensorOrder (collectMetricLines s lookup) = (sortTags s.tags).map Prod.fst := by
  rcases hn : s.last_nonce with _ | nv <;>
    simp [sensorOrder, collectMetricLines, hn, optMetric, List.filter_append,
      List.filter_flatMap, List.filterMap_append, sensorOrder_flatMap]

lemma decode_v5Bytes : decodeRuuvi v5Bytes = some (.V5 v5ReadingA) := by
  simp [decodeRuuvi, v5Bytes, v5ReadingA, beU16, beI16]
  norm_num

lemma decode_v5BytesB : decodeRuuvi v5BytesB = some (.V5 v5ReadingB) := by
  simp [decodeRuuvi, v5BytesB, v5ReadingB, beU16, beI16]
  norm_num

/-- When a scan terminates and the last vendor-matching candidate decodes
to `v`, `update_tag` replaces the sensor's record with
`⟨msg.timestamp, msg.rssi, v⟩` unconditionally. -/
lemma update_tag_stores_last
    (decode : List ℕ → Option RuuviData) (msg : TagMessage) (tags : TagStore)
    (structs : List (Except Unit AdMessage)) (plast : List ℕ) (v : RuuviData)
    (hscan : adScan msg.data = some structs)
    (hlast : (vendorCands structs).getLast? = some plast)
    (hv : decode plast = some v) :
    updateTag decode msg tags =
      some (insertTag msg.name ⟨msg.timestamp, msg.rssi, v⟩ tags) := by
  rw [updateTag, hscan, Option.map_some']
  congr 1
  rw [updateTagCore, foldl_updateTagStep]
  rw [show (((ruuviMsgs structs).filterMap candPayload).filterMap
      decode).getLast? = some v from
    filterMap_getLast?_of_last decode _ plast v hlast hv]

/-- C1: a length byte exceeding the remaining bytes yields one terminal
decode failure when at least one byte follows the length byte
(`adScan [5, 1]`), but on a buffer consisting of a single length byte the
iterator's catch-all arm returns an error without consuming the buffer,
so the scan never terminates: the scanner emits infinitely many failures
instead of exactly one. -/
theorem truncated_structure_failure_loops_on_one_byte :
    adScan [5, 1] = some [.error ()] ∧
    adNext [5] = .yield (.error ()) [5] ∧
    (∀ n, scanAds n [5] = none) ∧ adScan [5] = none :=
  ⟨rfl, rfl, scanAds_singleton 5, scanAds_singleton 5 _⟩

/-- C10: the scanner's `next` is not total and its iteration is not
finite: a zero length byte makes the `len - 1` computation underflow
(modelled as `abort`), and a one-byte buffer is yielded as an error
without being consumed, so iteration never reaches the end. -/
theorem ad_iter_aborts_on_zero_length_and_loops_on_one_byte :
    adNext [0, 0] = .abort ∧ adScan [0, 0] = none ∧
    adNext [7] = .yield (.error ()) [7] ∧ (∀ n, scanAds n [7] = none) :=
  ⟨rfl, rfl, rfl, scanAds_singleton 7⟩

/-- C2: when the advertisement contains two or more vendor-matching
structures that each decode successfully, the record stored for the
sensor carries the reading decoded from the last such structure in
structure order. -/
theorem update_tag_last_candidate_wins
    (decode : List ℕ → Option RuuviData) (msg : TagMessage) (tags : TagStore)
    (structs : List (Except Unit AdMessage)) (plast : List ℕ) (v : RuuviData)
    (hscan : adScan msg.data = some structs)
    (htwo : 2 ≤ (vendorCands structs).length)
    (hok : ∀ p ∈ vendorCands structs, (decode p).isSome)
    (hlast : (vendorCands structs).getLast? = some plast)
    (hv : decode plast = some v) :
    ∃ tags', updateTag decode msg tags = some tags' ∧
      lookupTag msg.name tags' = some ⟨msg.timestamp, msg.rssi, v⟩ :=
  ⟨_, update_tag_stores_last decode msg tags structs plast v hscan hlast hv,
    lookupTag_insertTag _ _ _⟩

theorem update_tag_last_candidate_wins_witness :
    adScan advTwoVendors = some structsTwoVendors ∧
    2 ≤ (vendorCands structsTwoVendors).length ∧
    (vendorCands structsTwoVendors).getLast? = some v5BytesB ∧
    decodeRuuvi v5BytesB = some (.V5 v5ReadingB) ∧
    (∃ tags', updateTag decodeRuuvi ⟨"W2", advTwoVendors, 100, -50⟩ [] =
        some tags' ∧
      lookupTag "W2" tags' = some ⟨100, -50, .V5 v5ReadingB⟩) :=
  ⟨by decide, by decide, by decide, decode_v5BytesB,
    update_tag_last_candidate_wins decodeRuuvi ⟨"W2", advTwoVendors, 100, -50⟩
      [] structsTwoVendors v5BytesB (.V5 v5ReadingB) (by decide) (by decide)
      (by decide) (by decide) decode_v5BytesB⟩

/-- C4: when no vendor-matching candidate decodes successfully (in
particular when there is no vendor-matching candidate at all),
`update_tag` returns with the store exactly as it was: no record is
deleted or blanked, and the condition is not fatal (the function yields a
result rather than panicking). -/
theorem update_tag_without_success_preserves_store
    (decode : List ℕ → Option RuuviData) (msg : TagMessage) (tags : TagStore)
    (structs : List (Except Unit AdMessage))
    (hscan : adScan msg.data = some structs)
    (hfail : ∀ p ∈ vendorCands structs, decode p = none) :
    updateTag decode msg tags = some tags := by
  rw [updateTag, hscan, Option.map_some']
  congr 1
  rw [updateTagCore, foldl_updateTagStep]
  rw [show ((ruuviMsgs structs).filterMap candPayload).filterMap decode = []
    from List.filterMap_eq_nil_iff.mpr hfail]
  rfl

theorem update_tag_without_success_preserves_store_witness :
    adScan [0x02, 0x01, 0x06] = some structsNoVendor ∧
    vendorCands structsNoVendor = [] ∧
    updateTag decodeRuuvi ⟨"W4", [0x02, 0x01, 0x06], 100, -50⟩
      [("W4", tagRecA)] = some [("W4", tagRecA)] :=
  ⟨by decide, by decide,
    update_tag_without_success_preserves_store decodeRuuvi
      ⟨"W4", [0x02, 0x01, 0x06], 100, -50⟩ [("W4", tagRecA)] structsNoVendor
      (by decide) (by decide)⟩

/-- C6: the upsert is unconditional: even when the store already holds a
record for the sensor with a strictly newer last-seen time, a successful
decode replaces the whole record with the arriving message's capture time,
signal strength and reading — no comparison against the stored
last-seen time is made. -/
theorem update_tag_overwrites_newer_record
    (decode : List ℕ → Option RuuviData) (msg : TagMessage) (tags : TagStore)
    (structs : List (Except Unit AdMessage)) (old : Tag)
    (plast : List ℕ) (v : RuuviData)
    (hscan : adScan msg.data = some structs)
    (hold : lookupTag msg.name tags = some old)
    (hlate : msg.timestamp < old.last_seen)
    (hlast : (vendorCands structs).getLast? = some plast)
    (hv : decode plast = some v) :
    ∃ tags', updateTag decode msg tags = some tags' ∧
      lookupTag msg.name tags' = some ⟨msg.timestamp, msg.rssi, v⟩ :=
  ⟨_, update_tag_stores_last decode msg tags structs plast v hscan hlast hv,
    lookupTag_insertTag _ _ _⟩

theorem update_tag_overwrites_newer_record_witness :
    adScan advOneVendor = some structsOneVendor ∧
    lookupTag "W6" [("W6", Tag.mk 200 (-60) (.V6 emptyV6))] =
      some ⟨200, -60, .V6 emptyV6⟩ ∧
    ((100 : ℚ) < 200) ∧
    (vendorCands structsOneVendor).getLast? = some v5Bytes ∧
    decodeRuuvi v5Bytes = some (.V5 v5ReadingA) ∧
    (∃ tags', updateTag decodeRuuvi ⟨"W6", advOneVendor, 100, -50⟩
        [("W6", ⟨200, -60, .V6 emptyV6⟩)] = some tags' ∧
      lookupTag "W6" tags' = some ⟨100, -50, .V5 v5ReadingA⟩) :=
  ⟨by decide, by decide, by decide, by decide, decode_v5Bytes,
    update_tag_overwrites_newer_record decodeRuuvi
      ⟨"W6", advOneVendor, 100, -50⟩ [("W6", ⟨200, -60, .V6 emptyV6⟩)]
      structsOneVendor ⟨200, -60, .V6 emptyV6⟩ v5Bytes (.V5 v5ReadingA)
      (by decide) (by decide) (by decide) (by decide) decode_v5Bytes⟩

/-- C3: the serialized document lists sensors in ascending order of their
identifier string, and the output depends only on the set of per-sensor
records: any permutation of the store's entries (same records, different
arrival/insertion order) serializes to the identical document. -/
theorem metrics_sorted_and_arrival_order_independent
    (s : Measurements) (lookup : String → Option String) (tags2 : TagStore)
    (hperm : s.tags.Perm tags2) (hnd : (s.tags.map Prod.fst).Nodup) :
    sensorOrder (collectMetricLines s lookup) =
      (sortTags s.tags).map Prod.fst ∧
    List.Sorted (· ≤ ·) (sensorOrder (collectMetricLines s lookup)) ∧
    collectMetricLines { s with tags := tags2 } lookup =
      collectMetricLines s lookup := by
  refine ⟨sensorOrder_collect s lookup, ?_, ?_⟩
  · rw [sensorOrder_collect]
    exact sortTags_sorted_keys s.tags
  · have h2 : sortTags tags2 = sortTags s.tags :=
      sortTags_eq_of_perm hperm.symm (((hperm.map Prod.fst).nodup_iff).mp hnd)
    show collectMetricLines ⟨s.last_update, s.last_nonce, s.mac, tags2⟩ lookup = _
    rw [collectMetricLines, collectMetricLines]
    rw [show (Measurements.mk s.last_update s.last_nonce s.mac tags2).tags =
      tags2 from rfl]
    rw [h2]

theorem metrics_sorted_and_arrival_order_independent_witness :
    stateBA.tags.Perm tagsAB ∧ (stateBA.tags.map Prod.fst).Nodup ∧
    sensorOrder (collectMetricLines stateBA lookupNone) = ["A", "B"] ∧
    collectMetricLines { stateBA with tags := tagsAB } lookupNone =
      collectMetricLines stateBA lookupNone := by
  have h := metrics_sorted_and_arrival_order_independent stateBA lookupNone
    tagsAB (by decide) (by decide)
  refine ⟨by decide, by decide, h.1.trans ?_, h.2.2⟩
  simp [sortTags, stateBA, tagKeyLe, List.insertionSort, List.orderedInsert]
  decide

/-- C5: a field whose value is absent for the stored reading produces no
metric line at all for that sensor — its metric name does not occur among
the sensor's emitted lines — and the all-sentinel format-"V5" record
decodes to a reading in which every sentinel-capable field is absent. -/
theorem absent_field_renders_no_line
    (g : String) (lookup : String → Option String) (mac : String) (tag : Tag)
    (name : String)
    (hmem : (name, none) ∈ optionalFieldValues tag.values) :
    name ∉ (tagLines g lookup mac tag).map Metric.name ∧
    decodeRuuvi sentinelV5Bytes = some (.V5 sentinelV5Reading) := by
  refine ⟨?_, by decide⟩
  rw [tagLines_names]
  intro hin
  have hkey : name ∈ (optionalFieldValues tag.values).map Prod.fst :=
    List.mem_map.mpr ⟨(name, none), hmem, rfl⟩
  have hne := optionalFieldValues_keys_ne tag.values name hkey
  rcases List.mem_cons.mp hin with h1 | h1
  · exact hne.1 h1
  rcases List.mem_append.mp h1 with h2 | h2
  · obtain ⟨v, hv⟩ := mem_presentOptionalNames h2
    have := keyed_value_unique (optionalFieldValues_keys_nodup tag.values)
      hmem hv
    simp at this
  · simp only [List.mem_singleton] at h2
    exact hne.2 h2

theorem absent_field_renders_no_line_witness :
    (("ruuvi_tag_temperature_celsius", (none : Option ℚ)) ∈
      optionalFieldValues (Tag.mk 5 (-7) (.V5 sentinelV5Reading)).values) ∧
    ("ruuvi_tag_temperature_celsius" ∉
      (tagLines "G" lookupNone "M" ⟨5, -7, .V5 sentinelV5Reading⟩).map
        Metric.name ∧
     decodeRuuvi sentinelV5Bytes = some (.V5 sentinelV5Reading)) :=
  ⟨by decide,
    absent_field_renders_no_line "G" lookupNone "M"
      ⟨5, -7, .V5 sentinelV5Reading⟩ "ruuvi_tag_temperature_celsius"
      (by decide)⟩

/-- C7: serializing the freshly constructed store yields exactly one line:
the gateway update-timestamp line carrying the sentinel epoch value 0 —
no gateway nonce line and no sensor lines — for every lookup table. -/
theorem fresh_state_document (lookup : String → Option String) :
    (collectMetricLines Measurements.new lookup).map
      (fun m => (m.name, m.value)) =
    [("ruuvi_gateway_update_timestamp_seconds", (0 : ℚ))] := rfl

theorem fresh_state_document_witness :
    (collectMetricLines Measurements.new lookupNone).map
      (fun m => (m.name, m.value)) =
    [("ruuvi_gateway_update_timestamp_seconds", (0 : ℚ))] :=
  fresh_state_document lookupNone

/-- C8: ingesting the captured format-"V5" advertisement into a fresh
store stores the spec's literal values, and serializing yields exactly
the literal lines: temperature 20.32 °C, humidity ratio 0.3295,
pressure 100347 Pa, acceleration (−1.004, 0.052, 0.036) g, battery
2.925 V, tx power 4 dBm, movement counter 235, sequence number 42308 and
signal strength −55 dBm. -/
theorem captured_v5_payload_roundtrip :
    updateTag decodeRuuvi msgCaptured Measurements.new.tags =
      some [("DD:19:92:CB:60:21", ⟨1736885086, -55, .V5 v5ReadingA⟩)] ∧
    collectMetricLines
      ⟨0, none, "", [("DD:19:92:CB:60:21", ⟨1736885086, -55, .V5 v5ReadingA⟩)]⟩
      lookupNone =
    [⟨"ruuvi_gateway_update_timestamp_seconds", [("gw_mac", "")], 0⟩,
     ⟨"ruuvi_tag_last_seen_timestamp_seconds", capturedLabels, 1736885086⟩,
     ⟨"ruuvi_tag_sequence_number", capturedLabels, 42308⟩,
     ⟨"ruuvi_tag_temperature_celsius", capturedLabels, 20.32⟩,
     ⟨"ruuvi_tag_humidity_ratio", capturedLabels, 0.3295⟩,
     ⟨"ruuvi_tag_pressure_pascals", capturedLabels, 100347⟩,
     ⟨"ruuvi_tag_movement_counter", capturedLabels, 235⟩,
     ⟨"ruuvi_tag_acceleration_x_g", capturedLabels, -1.004⟩,
     ⟨"ruuvi_tag_acceleration_y_g", capturedLabels, 0.052⟩,
     ⟨"ruuvi_tag_acceleration_z_g", capturedLabels, 0.036⟩,
     ⟨"ruuvi_tag_battery_volts", capturedLabels, 2.925⟩,
     ⟨"ruuvi_tag_tx_power_dBm", capturedLabels, 4⟩,
     ⟨"ruuvi_tag_rssi_dBm", capturedLabels, -55⟩] := by
  constructor
  · exact update_tag_stores_last decodeRuuvi msgCaptured [] structsCaptured
      v5Bytes (.V5 v5ReadingA) (by decide) (by decide) decode_v5Bytes
  · norm_num [collectMetricLines, tagLines, sortTags, List.insertionSort,
      tagLabels, commonEnvironmentalMetrics, optMetric, v5ReadingA,
      capturedLabels, lookupNone]

/-- C9 counterexample: the spec's lock discipline fails on the code: in
the `metrics` handler, serialization runs while the lock is held, and in
`post_measurements`, payload decoding runs while the lock is held. -/
theorem lock_discipline_violated :
    ¬ noWorkUnderLock metricsTrace ∧
    ¬ noWorkUnderLock (postMeasurementsTrace 1) := by
  constructor
  · intro h
    exact (h 1 (by decide)).2 (by decide)
  · intro h
    exact (h 1 (by decide)).1 (by decide)

/-- C9 amended: in `post_measurements` every payload-decoding step runs
while the lock is held, and in the `metrics` handler serialization runs
while the lock is held; the lock is released only afterwards — no
snapshot is serialized outside the critical section. -/
theorem decode_and_serialize_run_under_lock :
    (∀ n i, (postMeasurementsTrace n)[i]? = some .decodeWork →
      lockHeldAt (postMeasurementsTrace n) i = true) ∧
    (∀ i, metricsTrace[i]? = some .serializeWork →
      lockHeldAt metricsTrace i = true) := by
  constructor
  · intro n i h
    rcases i with _ | j
    · simp [postMeasurementsTrace] at h
    · rw [show postMeasurementsTrace n =
        .acquire :: (List.replicate n LockEv.decodeWork ++ [.release])
        from rfl] at h ⊢
      rw [List.getElem?_cons_succ] at h
      have hj : j < n := by
        by_contra hge
        push_neg at hge
        rw [List.getElem?_append_right (by simpa using hge)] at h
        rcases hk : j - (List.replicate n LockEv.decodeWork).length with _ | k
        · rw [hk] at h
          simp at h
        · rw [hk] at h
          simp at h
      rw [lockHeldAt, List.take_succ_cons]
      rw [show (List.replicate n LockEv.decodeWork ++ [LockEv.release]).take j =
          List.replicate j LockEv.decodeWork from by
        rw [List.take_append_of_le_length (by simpa using le_of_lt hj),
          List.take_replicate, min_eq_left (le_of_lt hj)]]
      simp [List.count_cons, List.count_replicate]
  · intro i h
    rcases i with _ | _ | _ | i
    · simp [metricsTrace] at h
    · decide
    · simp [metricsTrace] at h
    · simp [metricsTrace] at h

theorem decode_and_serialize_run_under_lock_witness :
    ((postMeasurementsTrace 1)[1]? = some LockEv.decodeWork ∧
      lockHeldAt (postMeasurementsTrace 1) 1 = true) ∧
    (metricsTrace[1]? = some LockEv.serializeWork ∧
      lockHeldAt metricsTrace 1 = true) :=
  ⟨⟨by decide, decode_and_serialize_run_under_lock.1 1 1 (by decide)⟩,
   ⟨by decide, decode_and_serialize_run_under_lock.2 1 (by decide)⟩⟩

end Ruuvi
